import Mathlib

/-! Verification of the `async` package (src/async/fetcher.go): a generic
single-shot asynchronous computation handle (`Fetcher`) with `Async`
construction, `Run` start, `Await` observation, and a process-wide
panic-handler registry (`SetPanicHandlers` / `handlePanicErr`).

Modelling conventions (shallow embedding of the Go code):
- Go errors are `Option String` (`none` is Go's `nil` error).
- The behaviour of one execution of the wrapped function `fn(ctx, arg)` is a
  `FnBehavior`: it either returns a value/error pair or terminates abnormally
  with a payload (modelled as the `%v` rendering of the payload).
- The cancellation context is observed by the goroutine at exactly two points
  (the `select` on `ctx.Done()` before calling `fn`, and the `ctx.Err()`
  re-check after `fn` returns); `Ctx` records the value of `ctx.Err()` at
  those two observation points.  Per the `context.Context` contract,
  `ctx.Done()` is ready exactly when `ctx.Err()` is non-nil.
- The completion channel `ch *chan struct{}` is modelled by its observable
  state: nil pointer / allocated-open / closed.
- `Run` returns the fetcher paired with a `Bool` recording whether it spawned
  a goroutine; the spawned goroutine's execution is `goroutineBody`.
-/

namespace AsyncFetcher

/-- A Go `error` value: `none` is Go's nil error. -/
abbrev GoErr := Option String

/-- Go struct Result[T] (fetcher.go lines 26-29): the stored value/error pair. -/
structure Result (T : Type) where
  Value : T
  Err : GoErr
deriving DecidableEq, Repr

/-- The cancellation context as observed by the goroutine of `Run`:
`errBefore` is `ctx.Err()` when the goroutine performs the `select` on
`ctx.Done()` (line 80; the `Done` channel is ready exactly when `Err` is
non-nil), and `errAfter` is `ctx.Err()` at the re-check after `fn` returns
(line 91). -/
structure Ctx where
  errBefore : GoErr
  errAfter : GoErr
deriving DecidableEq, Repr

/-- The behaviour of one execution of the wrapped Go function
`fn(ctx, arg) (T, error)`: either a normal return of a value and error, or an
abnormal termination (panic) whose payload renders as `payload` under `%v`. -/
inductive FnBehavior (T : Type) where
  | ret (val : T) (err : GoErr)
  | panics (payload : String)
deriving DecidableEq, Repr

/-- Observable state of the completion channel field `ch *chan struct{}`:
`nilCh` = the pointer is nil (never started), `openedCh` = allocated but not
yet closed, `closedCh` = closed (computation complete). -/
inductive ChState where
  | nilCh
  | openedCh
  | closedCh
deriving DecidableEq, Repr

/-- Go struct Fetcher[T, A] (fetcher.go lines 44-49).  The Go function field is
embedded as its behaviour map: what `Fn(ctx, Arg)` does for each observed
context. -/
structure Fetcher (T A : Type) where
  Fn : Ctx → A → FnBehavior T
  Arg : A
  result : Result T
  ch : ChState

/-- Constructor `Async(fn, arg)` (fetcher.go lines 53-58): binds fn and arg; the `result`
field is Go-zero-initialised (`zero` is the Go zero value of `T`, and a nil
error) and `ch` is the nil pointer. -/
def Async {T A : Type} (zero : T) (fn : Ctx → A → FnBehavior T) (arg : A) :
    Fetcher T A :=
  { Fn := fn, Arg := arg, result := ⟨zero, none⟩, ch := ChState.nilCh }

/-- Method `Run(ctx)` (fetcher.go lines 63-99) restricted to its synchronous part:
if `f.ch != nil` it returns `f` unchanged; otherwise it allocates the channel
and spawns the goroutine.  The `Bool` records whether a goroutine was
spawned by this call. -/
def Run {T A : Type} (f : Fetcher T A) : Fetcher T A × Bool :=
  if f.ch ≠ ChState.nilCh then (f, false)
  else ({ f with ch := ChState.openedCh }, true)

/-- The message of the error synthesised by the recovery guard
(fetcher.go line 73): `fmt.Errorf("[Fetcher.Async]: panic recovered: %v", r)`
where `r` renders as the payload string. -/
def panicRecoveredMsg (r : String) : String :=
  "[Fetcher.Async]: panic recovered: " ++ r

/-- What one execution of the goroutine of `Run` produced: the fetcher state
it left behind (result written, channel closed by the deferred function),
whether `fn` was invoked, and the payload passed to `handlePanicErr` when the
recovery guard caught an abnormal termination (`none` otherwise). -/
structure RunOutcome (T A : Type) where
  fetcher : Fetcher T A
  fnInvoked : Bool
  dispatch : Option String

/-- The goroutine body of `Run` (fetcher.go lines 69-96).
`zero` is the Go zero value of `T` (`var zero T`, line 81).
- `select`: if `ctx.Done()` is already ready (`ctx.Err()` non-nil at the
  check), store `Result{zero, ctx.Err()}` and return without invoking fn
  (lines 79-86); the deferred function closes the channel.
- Otherwise invoke `fn(ctx, arg)`.  On normal return `(val, err)`: if
  `ctx.Err() != nil && err == nil` then `err = ctx.Err()` (lines 91-93);
  store `Result{val, err}` (line 95).
- On abnormal termination with payload `p`: the deferred recovery guard calls
  `handlePanicErr(ctx, p)` and sets only `f.result.Err` to the synthesised
  error (lines 70-74), leaving `f.result.Value` as it was (line 95 was never
  reached), then closes the channel. -/
def goroutineBody {T A : Type} (zero : T) (ctx : Ctx) (f : Fetcher T A) :
    RunOutcome T A :=
  match ctx.errBefore with
  | some e =>
      { fetcher := { f with result := ⟨zero, some e⟩, ch := ChState.closedCh }
        fnInvoked := false
        dispatch := none }
  | none =>
      match f.Fn ctx f.Arg with
      | FnBehavior.ret val err =>
          { fetcher :=
              { f with
                result :=
                  ⟨val, if ctx.errAfter.isSome && err.isNone then ctx.errAfter
                        else err⟩
                ch := ChState.closedCh }
            fnInvoked := true
            dispatch := none }
      | FnBehavior.panics p =>
          { fetcher :=
              { f with
                result := ⟨f.result.Value, some (panicRecoveredMsg p)⟩
                ch := ChState.closedCh }
            fnInvoked := true
            dispatch := some p }

/-- What a call to `Await` does (fetcher.go lines 103-110): on a nil channel
it panics with the given message; on an allocated-but-open channel the caller
blocks; once the channel is closed it returns the stored value and error. -/
inductive AwaitResult (T : Type) where
  | panicked (msg : String)
  | blocked
  | returned (val : T) (err : GoErr)
deriving DecidableEq, Repr

/-- Method `Await()` (fetcher.go lines 103-110). -/
def Await {T A : Type} (f : Fetcher T A) : AwaitResult T :=
  match f.ch with
  | ChState.nilCh =>
      AwaitResult.panicked "fetcher not started, call Run() first"
  | ChState.openedCh => AwaitResult.blocked
  | ChState.closedCh => AwaitResult.returned f.result.Value f.result.Err

/-- The outcomes of `n` consecutive `Await` calls on the same fetcher. -/
def awaitList {T A : Type} (n : Nat) (f : Fetcher T A) :
    List (AwaitResult T) :=
  match n with
  | 0 => []
  | Nat.succ m => Await f :: awaitList m f

/-- Performing `n` consecutive calls to `Run` on the same handle, returning the final
state and how many goroutines were spawned in total. -/
def runTimes {T A : Type} (n : Nat) (f : Fetcher T A) : Fetcher T A × Nat :=
  match n with
  | 0 => (f, 0)
  | Nat.succ m =>
      let r := Run f
      let rest := runTimes m r.1
      (rest.1, (if r.2 then 1 else 0) + rest.2)

/-- Function `SetPanicHandlers(handlers...)` (fetcher.go lines 20-24): replaces the
whole `globalPanicHandlers` list; the previous list is discarded. -/
def SetPanicHandlers {H : Type} (globalPanicHandlers : List H)
    (handlers : List H) : List H :=
  handlers

/-- An observable event of the recovery path: the diagnostic log entry
(payload + stack trace, line 116), or the invocation of one registered
callback with a context and payload (line 118).  Callbacks are identified by
an abstract type `H`. -/
inductive RecoveryEvent (H : Type) where
  | logged (r : String)
  | invoked (fn : H) (ctx : Ctx) (r : String)
deriving DecidableEq, Repr

/-- Function `handlePanicErr(ctx, r)` (fetcher.go lines 112-120) as its event trace:
first the `log.Printf` diagnostic, then one invocation per entry of
`globalPanicHandlers`, in list order, each receiving the same `(ctx, r)`. -/
def handlePanicErr {H : Type} (globalPanicHandlers : List H) (ctx : Ctx)
    (r : String) : List (RecoveryEvent H) :=
  RecoveryEvent.logged r ::
    globalPanicHandlers.map (fun fn => RecoveryEvent.invoked fn ctx r)

/-- Extracts the callback of an invocation event, if the event is one. -/
def invokedCallback {H : Type} : RecoveryEvent H → Option H
  | RecoveryEvent.invoked fn _ _ => some fn
  | RecoveryEvent.logged _ => none

/-! Shared-memory model of the registry for the synchronisation claim: the
atomic steps each function performs on `handlersMu` and on the shared
`globalPanicHandlers` variable, and a mutex-respecting interleaving
semantics. -/

/-- An atomic step on the shared registry state: acquiring or releasing
`handlersMu` (write side or read side), and accessing the shared
`globalPanicHandlers` variable. -/
inductive MemAction where
  | lockMu
  | unlockMu
  | rlockMu
  | runlockMu
  | writeHandlers
  | readHandlers
deriving DecidableEq, Repr

/-- The steps of `SetPanicHandlers` (fetcher.go lines 20-24):
`handlersMu.Lock()`, the assignment to `globalPanicHandlers`, and the
deferred `handlersMu.Unlock()`. -/
def setPanicHandlersSteps : List MemAction :=
  [MemAction.lockMu, MemAction.writeHandlers, MemAction.unlockMu]

/-- The steps of `handlePanicErr` on the shared registry state
(fetcher.go lines 112-120): the `range globalPanicHandlers` loop reads the
shared list; no lock of any kind is acquired. -/
def handlePanicErrSteps : List MemAction :=
  [MemAction.readHandlers]

/-- Whether a thread's step list ever acquires `handlersMu`, in either write
or read mode. -/
def acquiresHandlersMu (steps : List MemAction) : Bool :=
  steps.any (fun a => a == MemAction.lockMu || a == MemAction.rlockMu)

/-- Thread identifiers for a two-thread execution: one thread running
`SetPanicHandlers`, one running `handlePanicErr`. -/
inductive Tid where
  | writer
  | reader
deriving DecidableEq, Repr

/-- A two-thread execution: an interleaved list of (thread, step). -/
abbrev Exec := List (Tid × MemAction)

/-- The steps a given thread performs in an execution, in order. -/
def projOf (t : Tid) (ex : Exec) : List MemAction :=
  ex.filterMap (fun s => if s.1 = t then some s.2 else none)

/-- Checks that an execution respects the mutual-exclusion semantics of
`handlersMu`'s write lock: `Lock` only when free, `Unlock` only when held. -/
def mutexOkFrom : Bool → Exec → Bool
  | _, [] => true
  | held, (_, MemAction.lockMu) :: rest => !held && mutexOkFrom true rest
  | held, (_, MemAction.unlockMu) :: rest => held && mutexOkFrom false rest
  | held, _ :: rest => mutexOkFrom held rest

/-- An execution respects the mutex, starting from the lock being free. -/
def mutexOk (ex : Exec) : Bool := mutexOkFrom false ex

/-- Whether the reader thread reads `globalPanicHandlers` at a point where
the writer holds `handlersMu` (i.e. inside the writer's mutation-in-progress
critical section). -/
def readerReadsInWriterCS : Bool → Exec → Bool
  | _, [] => false
  | _, (Tid.writer, MemAction.lockMu) :: rest =>
      readerReadsInWriterCS true rest
  | _, (Tid.writer, MemAction.unlockMu) :: rest =>
      readerReadsInWriterCS false rest
  | inCS, (Tid.reader, MemAction.readHandlers) :: rest =>
      inCS || readerReadsInWriterCS inCS rest
  | inCS, _ :: rest => readerReadsInWriterCS inCS rest

/-- A concrete interleaving of one `SetPanicHandlers` call and one concurrent
`handlePanicErr` dispatch in which the dispatch reads the shared list while
the writer is inside its critical section. -/
def raceExec : Exec :=
  [(Tid.writer, MemAction.lockMu),
   (Tid.writer, MemAction.writeHandlers),
   (Tid.reader, MemAction.readHandlers),
   (Tid.writer, MemAction.unlockMu)]

/-! Concrete instances used by the counterexample and the witnesses. -/

/-- A wrapped function that returns a non-zero value together with a non-nil
error, as Go permits. -/
def fnRetErr : Ctx → Nat → FnBehavior Nat :=
  fun _ _ => FnBehavior.ret 5 (some "boom")

/-- A wrapped function that returns successfully. -/
def fnRetOk : Ctx → Nat → FnBehavior Nat :=
  fun _ _ => FnBehavior.ret 7 none

/-- A wrapped function that panics with payload "boom". -/
def fnPanics : Ctx → Nat → FnBehavior Nat :=
  fun _ _ => FnBehavior.panics "boom"

/-- A wrapped function that returns the zero value with a nil error (as a
context-aware function that noticed cancellation and gave up would). -/
def fnRetNil : Ctx → Nat → FnBehavior Nat :=
  fun _ _ => FnBehavior.ret 0 none

/-- A handle on which `Run` has already been called once. -/
def startedFetcher : Fetcher Nat Nat := (Run (Async 0 fnRetOk 1)).1



/-! Helper lemmas shared by the proofs below. -/

/-- Once a handle is started, further `Run` calls leave it unchanged and
spawn nothing, however many there are. -/
theorem runTimes_already_started {T A : Type} (n : Nat) (f : Fetcher T A)
    (h : f.ch ≠ ChState.nilCh) : runTimes n f = (f, 0) := by
  induction n with
  | zero => rfl
  | succ m ih => simp [runTimes, Run, h, ih]

/-- Counting one callback's invocation events in the mapped invocation list
counts its registrations. -/
theorem count_invoked_map {H : Type} [DecidableEq H] (hs : List H) (ctx : Ctx)
    (p : String) (h : H) :
    (hs.map (fun fn => RecoveryEvent.invoked fn ctx p)).count
        (RecoveryEvent.invoked h ctx p) = hs.count h := by
  induction hs with
  | nil => rfl
  | cons a t ih => simp [List.count_cons, ih]

/-- Extracting the callbacks back out of the mapped invocation list recovers
the registered list in order. -/
theorem filterMap_invoked_map {H : Type} (hs : List H) (ctx : Ctx)
    (p : String) :
    List.filterMap (invokedCallback ∘ fun fn => RecoveryEvent.invoked fn ctx p)
        hs = hs := by
  induction hs with
  | nil => rfl
  | cons a t ih => simp [List.filterMap_cons, Function.comp, invokedCallback, ih]

/-! Theorems settling the claims. -/

/-- C1 (counterexample): the claim states that whenever `fn` returns a
non-nil error, `Await` returns the ZERO value for `T` paired with that error.
For `fn` returning `(5, "boom")` with `T = Nat` (zero value `0`), the code
stores and `Await` returns the value `5` that `fn` returned, not the zero
value `0` — fetcher.go line 95 stores `val` unconditionally. -/
theorem c1_counterexample :
    Await (goroutineBody 0 ⟨none, none⟩ (Run (Async 0 fnRetErr 1)).1).fetcher
        = AwaitResult.returned 5 (some "boom")
  ∧ Await (goroutineBody 0 ⟨none, none⟩ (Run (Async 0 fnRetErr 1)).1).fetcher
        ≠ AwaitResult.returned 0 (some "boom") := by
  constructor
  · rfl
  · decide

/-- C1 (amended): for every computation whose wrapped function returns a
non-nil error, `Await` returns the value the function returned paired with
exactly that error (the error is propagated verbatim and is never overwritten
by cancellation; the value component is whatever `fn` returned, which is the
zero value exactly when `fn` follows the Go convention of returning the zero
value alongside an error). -/
theorem c1_error_propagated_verbatim {T A : Type} (zero : T)
    (fn : Ctx → A → FnBehavior T) (arg : A) (ea : GoErr) (v : T) (fe : String)
    (h : fn ⟨none, ea⟩ arg = FnBehavior.ret v (some fe)) :
    Await (goroutineBody zero ⟨none, ea⟩ (Run (Async zero fn arg)).1).fetcher
      = AwaitResult.returned v (some fe) := by
  simp [Async, Run, goroutineBody, Await, h]

/-- C1 (witness): the amended statement at a concrete input. -/
theorem c1_error_propagated_verbatim_witness :
    Await (goroutineBody 0 ⟨none, none⟩ (Run (Async 0 fnRetErr 1)).1).fetcher
      = AwaitResult.returned 5 (some "boom") :=
  c1_error_propagated_verbatim 0 fnRetErr 1 none 5 "boom" rfl

/-- C2: for every computation whose wrapped function terminates abnormally
with payload `p`, `Await` returns the zero value for `T` together with a
non-nil error whose message references `p` (the message ends with the `%v`
rendering of `p`). -/
theorem c2_panic_outcome {T A : Type} (zero : T)
    (fn : Ctx → A → FnBehavior T) (arg : A) (ea : GoErr) (p : String)
    (h : fn ⟨none, ea⟩ arg = FnBehavior.panics p) :
    Await (goroutineBody zero ⟨none, ea⟩ (Run (Async zero fn arg)).1).fetcher
        = AwaitResult.returned zero (some (panicRecoveredMsg p))
  ∧ ∃ s, panicRecoveredMsg p = s ++ p := by
  constructor
  · simp [Async, Run, goroutineBody, Await, h]
  · exact ⟨"[Fetcher.Async]: panic recovered: ", rfl⟩

/-- C2 (witness): the statement at a concrete panicking function. -/
theorem c2_panic_outcome_witness :
    Await (goroutineBody 0 ⟨none, none⟩ (Run (Async 0 fnPanics 1)).1).fetcher
        = AwaitResult.returned 0 (some (panicRecoveredMsg "boom"))
  ∧ ∃ s, panicRecoveredMsg "boom" = s ++ "boom" :=
  c2_panic_outcome 0 fnPanics 1 none "boom" rfl

/-- C3: for every computation whose wrapped function returns `(v, nil)` and
whose cancellation context never fires, `Await` returns `v` with a nil error,
and any number of repeated `Await` calls on the completed handle all return
that identical value/error pair. -/
theorem c3_success_repeated_await {T A : Type} (zero : T)
    (fn : Ctx → A → FnBehavior T) (arg : A) (v : T)
    (h : fn ⟨none, none⟩ arg = FnBehavior.ret v none) :
    Await (goroutineBody zero ⟨none, none⟩
        (Run (Async zero fn arg)).1).fetcher = AwaitResult.returned v none
  ∧ ∀ n : Nat,
      awaitList n (goroutineBody zero ⟨none, none⟩
          (Run (Async zero fn arg)).1).fetcher
        = List.replicate n (AwaitResult.returned v none) := by
  have hA : Await (goroutineBody zero ⟨none, none⟩
      (Run (Async zero fn arg)).1).fetcher = AwaitResult.returned v none := by
    simp [Async, Run, goroutineBody, Await, h]
  refine ⟨hA, ?_⟩
  intro n
  induction n with
  | zero => rfl
  | succ m ih => simp [awaitList, hA, ih, List.replicate_succ]

/-- C3 (witness): a successful computation awaited three times. -/
theorem c3_success_repeated_await_witness :
    Await (goroutineBody 0 ⟨none, none⟩
        (Run (Async 0 fnRetOk 1)).1).fetcher = AwaitResult.returned 7 none
  ∧ awaitList 3 (goroutineBody 0 ⟨none, none⟩
        (Run (Async 0 fnRetOk 1)).1).fetcher
      = List.replicate 3 (AwaitResult.returned 7 none) :=
  ⟨(c3_success_repeated_await 0 fnRetOk 1 7 rfl).1,
   (c3_success_repeated_await 0 fnRetOk 1 7 rfl).2 3⟩

/-- C4: for every started handle whose cancellation context is already
signaled when the goroutine begins (terminal error `ce`), the wrapped
function is never invoked and the stored Outcome is the zero value of `T`
paired with `ce`; `Await` then returns exactly that pair. -/
theorem c4_precancelled_skips_fn {T A : Type} (zero : T)
    (fn : Ctx → A → FnBehavior T) (arg : A) (ce : String) (ea : GoErr) :
    (goroutineBody zero ⟨some ce, ea⟩
        (Run (Async zero fn arg)).1).fnInvoked = false
  ∧ (goroutineBody zero ⟨some ce, ea⟩
        (Run (Async zero fn arg)).1).fetcher.result = ⟨zero, some ce⟩
  ∧ Await (goroutineBody zero ⟨some ce, ea⟩
        (Run (Async zero fn arg)).1).fetcher
      = AwaitResult.returned zero (some ce) := by
  refine ⟨?_, ?_, ?_⟩ <;> simp [Async, Run, goroutineBody, Await]

/-- C5: when the wrapped function returns `(v, nil)` but the context fired
during the call (terminal error `ce`), the stored error is `ce`; when the
wrapped function returns a non-nil error, that error is stored unchanged
whatever the context did — cancellation never overwrites an error `fn`
already produced (fetcher.go lines 91-93). -/
theorem c5_cancellation_error_precedence {T A : Type} (zero : T)
    (fn fn2 : Ctx → A → FnBehavior T) (arg arg2 : A) (ce : String)
    (ea : GoErr) (v v2 : T) (fe : String) :
    (fn ⟨none, some ce⟩ arg = FnBehavior.ret v none →
      (goroutineBody zero ⟨none, some ce⟩
          (Run (Async zero fn arg)).1).fetcher.result = ⟨v, some ce⟩)
  ∧ (fn2 ⟨none, ea⟩ arg2 = FnBehavior.ret v2 (some fe) →
      (goroutineBody zero ⟨none, ea⟩
          (Run (Async zero fn2 arg2)).1).fetcher.result = ⟨v2, some fe⟩) := by
  constructor
  · intro h
    simp [Async, Run, goroutineBody, h]
  · intro h
    simp [Async, Run, goroutineBody, h]

/-- C5 (witness): both precedence branches at concrete inputs. -/
theorem c5_cancellation_error_precedence_witness :
    (goroutineBody 0 ⟨none, some "context canceled"⟩
        (Run (Async 0 fnRetNil 1)).1).fetcher.result
      = ⟨0, some "context canceled"⟩
  ∧ (goroutineBody 0 ⟨none, some "context canceled"⟩
        (Run (Async 0 fnRetErr 2)).1).fetcher.result = ⟨5, some "boom"⟩ :=
  ⟨(c5_cancellation_error_precedence 0 fnRetNil fnRetErr 1 2
      "context canceled" (some "context canceled") 0 5 "boom").1 rfl,
   (c5_cancellation_error_precedence 0 fnRetNil fnRetErr 1 2
      "context canceled" (some "context canceled") 0 5 "boom").2 rfl⟩

/-- C6: on an already-started handle, `Run` is a no-op — it returns the very
same handle, spawns nothing, allocates nothing; and across any number of
`Run` calls on a fresh handle exactly one goroutine is ever spawned. -/
theorem c6_run_idempotent_single_spawn {T A : Type} (f : Fetcher T A)
    (zero : T) (fn : Ctx → A → FnBehavior T) (arg : A) (n : Nat) :
    (f.ch ≠ ChState.nilCh → Run f = (f, false))
  ∧ (runTimes (n + 1) (Async zero fn arg)).2 = 1 := by
  constructor
  · intro h
    simp [Run, h]
  · have h2 : runTimes n
        ({ Fn := fn, Arg := arg, result := ⟨zero, none⟩,
           ch := ChState.openedCh } : Fetcher T A)
        = ({ Fn := fn, Arg := arg, result := ⟨zero, none⟩,
             ch := ChState.openedCh }, 0) :=
      runTimes_already_started n _ (by simp)
    simp [runTimes, Run, Async, h2]

/-- C6 (witness): a second `Run` on a started handle is the identity, and
three `Run` calls on a fresh handle spawn exactly one goroutine. -/
theorem c6_run_idempotent_single_spawn_witness :
    Run startedFetcher = (startedFetcher, false)
  ∧ (runTimes 3 (Async 0 fnRetOk 1)).2 = 1 :=
  ⟨(c6_run_idempotent_single_spawn startedFetcher 0 fnRetOk 1 2).1
      (by decide),
   (c6_run_idempotent_single_spawn startedFetcher 0 fnRetOk 1 2).2⟩

/-- C7: on a handle whose channel pointer is still nil (`Run` never called),
`Await` does not return a value and does not block: it panics with the
contract-violation message; in particular a freshly constructed handle
behaves this way. -/
theorem c7_await_before_run_panics {T A : Type} (f : Fetcher T A) (zero : T)
    (fn : Ctx → A → FnBehavior T) (arg : A) :
    (f.ch = ChState.nilCh →
      Await f = AwaitResult.panicked "fetcher not started, call Run() first")
  ∧ Await (Async zero fn arg)
      = AwaitResult.panicked "fetcher not started, call Run() first" := by
  constructor
  · intro h
    simp [Await, h]
  · rfl

/-- C7 (witness): `Await` on a freshly constructed, never-started handle. -/
theorem c7_await_before_run_panics_witness :
    Await (Async 0 fnRetOk 1)
      = AwaitResult.panicked "fetcher not started, call Run() first" :=
  (c7_await_before_run_panics (Async 0 fnRetOk 1) 0 fnRetOk 1).1 rfl

/-- C8: every dispatch first produces the diagnostic log entry (it is the
head of the event trace), then invokes each currently-registered callback
exactly once (invocation counts match registration counts) in registration
order with the same `(ctx, payload)` (extracting the invoked callbacks
recovers the registered list); after `SetPanicHandlers` with an empty list,
a dispatch produces the log entry and zero callback invocations. -/
theorem c8_dispatch_log_then_callbacks {H : Type} [DecidableEq H]
    (hs prev : List H) (ctx : Ctx) (p : String) (h : H) :
    (handlePanicErr hs ctx p).head? = some (RecoveryEvent.logged p)
  ∧ (handlePanicErr hs ctx p).count (RecoveryEvent.invoked h ctx p)
      = hs.count h
  ∧ (handlePanicErr hs ctx p).filterMap invokedCallback = hs
  ∧ handlePanicErr (SetPanicHandlers prev []) ctx p
      = [RecoveryEvent.logged p] := by
  refine ⟨rfl, ?_, ?_, rfl⟩
  · simp [handlePanicErr, List.count_cons, count_invoked_map]
  · simp [handlePanicErr, filterMap_invoked_map, invokedCallback]

/-- C8 (witness): the dispatch trace over a concrete registry. -/
theorem c8_dispatch_log_then_callbacks_witness :
    (handlePanicErr [10, 20] ⟨none, none⟩ "boom").head?
        = some (RecoveryEvent.logged "boom")
  ∧ (handlePanicErr [10, 20] ⟨none, none⟩ "boom").count
        (RecoveryEvent.invoked 10 ⟨none, none⟩ "boom") = [10, 20].count 10
  ∧ (handlePanicErr [10, 20] ⟨none, none⟩ "boom").filterMap invokedCallback
        = [10, 20]
  ∧ handlePanicErr (SetPanicHandlers [99] []) ⟨none, none⟩ "boom"
        = [RecoveryEvent.logged "boom"] :=
  c8_dispatch_log_then_callbacks [10, 20] [99] ⟨none, none⟩ "boom" 10

/-- C9 (code evaluation at the failing scenario): `handlePanicErr` acquires
no lock at all on `handlersMu` (neither write nor read mode) while
`SetPanicHandlers` holds the write lock for its mutation; consequently there
is a mutex-respecting interleaving of one `SetPanicHandlers` call and one
concurrent dispatch — `raceExec` — in which the dispatch reads the shared
callback list while the writer is inside its mutation critical section, so a
dispatch does NOT read an isolated snapshot. -/
theorem c9_dispatch_read_unsynchronised :
    acquiresHandlersMu handlePanicErrSteps = false
  ∧ acquiresHandlersMu setPanicHandlersSteps = true
  ∧ projOf Tid.writer raceExec = setPanicHandlersSteps
  ∧ projOf Tid.reader raceExec = handlePanicErrSteps
  ∧ mutexOk raceExec = true
  ∧ readerReadsInWriterCS false raceExec = true := by
  decide

/-- C10: when the wrapped function terminates abnormally, the stored error is
the synthesised panic-recovery error even if the cancellation context fired
during the call — lines 91-93 are skipped on the abnormal path; and when the
context had already fired before the goroutine started, `fn` is never invoked
at all, so the cancellation-precedence rule only ever acts on the
normal-return path. -/
theorem c10_panic_error_beats_cancellation {T A : Type} (zero : T)
    (fn fn2 : Ctx → A → FnBehavior T) (arg arg2 : A) (ce : String)
    (ea : GoErr) (p : String) :
    (fn ⟨none, some ce⟩ arg = FnBehavior.panics p →
      (goroutineBody zero ⟨none, some ce⟩
          (Run (Async zero fn arg)).1).fetcher.result.Err
        = some (panicRecoveredMsg p))
  ∧ (goroutineBody zero ⟨some ce, ea⟩
        (Run (Async zero fn2 arg2)).1).fnInvoked = false := by
  constructor
  · intro h
    simp [Async, Run, goroutineBody, h]
  · simp [Async, Run, goroutineBody]

/-- C10 (witness): a panic under a fired context keeps the panic error. -/
theorem c10_panic_error_beats_cancellation_witness :
    (goroutineBody 0 ⟨none, some "context canceled"⟩
        (Run (Async 0 fnPanics 1)).1).fetcher.result.Err
      = some (panicRecoveredMsg "boom")
  ∧ (goroutineBody 0 ⟨some "context canceled", some "context canceled"⟩
        (Run (Async 0 fnRetOk 2)).1).fnInvoked = false :=
  ⟨(c10_panic_error_beats_cancellation 0 fnPanics fnRetOk 1 2
      "context canceled" (some "context canceled") "boom").1 rfl,
   (c10_panic_error_beats_cancellation 0 fnPanics fnRetOk 1 2
      "context canceled" (some "context canceled") "boom").2⟩

end AsyncFetcher
